import Mathlib

/-!
Verification of the HF band propagation simulation
(src/supermorse-mumble/src/murmur/HFBandSimulation.cpp).

The C++ class is embedded shallowly:
* machine floats become exact rationals (for the pure table/threshold
  arithmetic) or real numbers (for the trigonometric path calculations);
* the mutable object state becomes an explicit `HFState` record that is
  threaded through each member function;
* Qt signal emissions become an explicit `List Event` output;
* calls to QDateTime::currentDateTime() become an explicit `DateTime`
  argument, and QRandomGenerator draws become explicit arguments.
-/

namespace HFBandSimulation

/-- Qt qBound(lo, v, hi) = qMax(lo, qMin(hi, v)). -/
def qBound {α : Type} [LinearOrder α] (lo v hi : α) : α :=
  max lo (min hi v)

/-- Qt qRound: round half away from zero (int(d+0.5) for d ≥ 0, int(d-0.5) otherwise,
where int() truncates toward zero). -/
def qRound (q : ℚ) : ℤ :=
  if 0 ≤ q then ⌊q + 1/2⌋ else ⌈q - 1/2⌉

/-- DEG_TO_RAD = M_PI / 180. -/
noncomputable def DEG_TO_RAD : ℝ := Real.pi / 180

/-- RAD_TO_DEG = 180 / M_PI. -/
noncomputable def RAD_TO_DEG : ℝ := 180 / Real.pi

/-- EARTH_RADIUS_KM = 6371. -/
def EARTH_RADIUS_KM : ℝ := 6371

/-- SOLAR_DECLINATION_MAX = 23.44 degrees. -/
def SOLAR_DECLINATION_MAX : ℝ := 23.44

/-- Band definition record from HFBandSimulation.h: band in meters, center
frequency in MHz, min/max effective distance in km, base reliability and
day/night multipliers.  Frequencies and factors are exact rationals. -/
structure BandDefinition where
  band : ℤ
  frequency : ℚ
  minDistance : ℚ
  maxDistance : ℚ
  reliability : ℚ
  dayFactor : ℚ
  nightFactor : ℚ
deriving DecidableEq

/-- The ten band definitions appended by initializeBandDefinitions. -/
def defaultBandDefinitions : List BandDefinition :=
  [ ⟨160, 1.9, 0, 1000, 0.8, 0.5, 1.5⟩,
    ⟨80, 3.75, 0, 1500, 0.85, 0.6, 1.4⟩,
    ⟨60, 5.35, 200, 2000, 0.8, 0.7, 1.3⟩,
    ⟨40, 7.15, 500, 3000, 0.9, 0.8, 1.2⟩,
    ⟨30, 10.125, 800, 4000, 0.85, 0.9, 1.1⟩,
    ⟨20, 14.175, 1000, 10000, 0.95, 1.3, 0.7⟩,
    ⟨17, 18.118, 1500, 12000, 0.9, 1.4, 0.6⟩,
    ⟨15, 21.225, 2000, 15000, 0.85, 1.5, 0.5⟩,
    ⟨10, 28.85, 3000, 20000, 0.8, 1.6, 0.4⟩,
    ⟨6, 52.0, 5000, 25000, 0.7, 1.7, 0.3⟩ ]

/-- Band → channel map inserted by initialize(). -/
def defaultBandChannels : List (ℤ × ℤ) :=
  [(160, 1), (80, 2), (60, 3), (40, 4), (30, 5),
   (20, 6), (17, 7), (15, 8), (10, 9), (6, 10)]

/-- Channel → band map inserted by initialize(). -/
def defaultChannelBands : List (ℤ × ℤ) :=
  [(1, 160), (2, 80), (3, 60), (4, 40), (5, 30),
   (6, 20), (7, 17), (8, 15), (9, 10), (10, 6)]

/-- The mutable state of the HFBandSimulation object: the band/channel maps,
the signal-strength cache (keyed by a pair of session ids, exactly as the
QHash in the source), and the condition fields. -/
structure HFState where
  bandChannels : List (ℤ × ℤ)
  channelBands : List (ℤ × ℤ)
  signalStrengths : List ((ℕ × ℕ) × ℝ)
  bandDefinitions : List BandDefinition
  solarFluxIndex : ℤ
  kIndex : ℤ
  season : ℤ
  autoTimeEnabled : Bool
  useExternalData : Bool
  useDXViewData : Bool
  useSWPCData : Bool
  lastExternalUpdate : ℤ

/-- The state right after the constructor defaults and initialize() have
populated the maps and band table (the constructor sets m_lastExternalUpdate
one hour in the past relative to an epoch taken as 0 here). -/
def initState : HFState :=
  { bandChannels := defaultBandChannels
    channelBands := defaultChannelBands
    signalStrengths := []
    bandDefinitions := defaultBandDefinitions
    solarFluxIndex := 120
    kIndex := 3
    season := 0
    autoTimeEnabled := true
    useExternalData := false
    useDXViewData := false
    useSWPCData := false
    lastExternalUpdate := -3600 }

/-- A server user as seen by the simulation: session id, the
"maidenheadgrid" metadata value, and the id of the channel the user is in
(channel pointer equality in the source becomes channel id equality). -/
structure ServerUser where
  session : ℕ
  grid : String
  channelId : ℤ

/-- The pieces of QDateTime the simulation reads: calendar month, hour and
minute of day, day of year (1-based, as QDate::dayOfYear), and an epoch
second count used for secsTo. -/
structure DateTime where
  month : ℤ
  hour : ℤ
  minute : ℤ
  dayOfYear : ℤ
  epochSecs : ℤ

/-- The QRandomGenerator draws consumed by one updatePropagation call:
generateDouble() and the two bounded perturbation draws. -/
structure Rand where
  double : ℚ
  sfiChange : ℤ
  kChange : ℤ

/-- The Qt signals the class can emit. -/
inductive Event where
  | propagationUpdated
  | signalStrengthChanged (grid1 grid2 : String) (strength : ℝ)
  | mufChanged (muf : ℝ)
  | externalDataUpdated (source : String) (success : Bool)

/-- Recognizer for the mufChanged signal. -/
def Event.isMufChanged : Event → Bool
  | .mufChanged _ => true
  | _ => false

/-- gridToLatLon: Maidenhead locator → (lat, lon).  A locator shorter than
4 characters returns the (0, 0) sentinel.  Characters are read exactly as
in the source: fields are upcased, squares are used raw, subsquares are
downcased; no further validation. -/
def gridToLatLon (grid : String) : ℚ × ℚ :=
  if grid.length < 4 then (0, 0)
  else
    let cs := grid.toList
    let field1 := (cs.getD 0 'A').toUpper
    let field2 := (cs.getD 1 'A').toUpper
    let square1 := cs.getD 2 '0'
    let square2 := cs.getD 3 '0'
    let lon0 : ℚ := ((field1.toNat : ℚ) - 65) * 20 - 180 + ((square1.toNat : ℚ) - 48) * 2
    let lon : ℚ :=
      if 6 ≤ grid.length then
        lon0 + (((cs.getD 4 'a').toLower.toNat : ℚ) - 97) * 2 / 24
      else lon0 + 1
    let lat0 : ℚ := ((field2.toNat : ℚ) - 65) * 10 - 90 + ((square2.toNat : ℚ) - 48) * 1
    let lat : ℚ :=
      if 6 ≤ grid.length then
        lat0 + (((cs.getD 5 'a').toLower.toNat : ℚ) - 97) / 24
      else lat0 + 1/2
    (lat, lon)

/-- C atan2(y, x). -/
noncomputable def atan2 (y x : ℝ) : ℝ :=
  if 0 < x then Real.arctan (y / x)
  else if x < 0 ∧ 0 ≤ y then Real.arctan (y / x) + Real.pi
  else if x < 0 ∧ y < 0 then Real.arctan (y / x) - Real.pi
  else if x = 0 ∧ 0 < y then Real.pi / 2
  else if x = 0 ∧ y < 0 then -(Real.pi / 2)
  else 0

/-- calculateDistance: haversine great-circle distance between the decoded
positions of two locators, Earth radius 6371 km. -/
noncomputable def calculateDistance (grid1 grid2 : String) : ℝ :=
  let latLon1 := gridToLatLon grid1
  let latLon2 := gridToLatLon grid2
  let lat1 := (latLon1.1 : ℝ) * DEG_TO_RAD
  let lon1 := (latLon1.2 : ℝ) * DEG_TO_RAD
  let lat2 := (latLon2.1 : ℝ) * DEG_TO_RAD
  let lon2 := (latLon2.2 : ℝ) * DEG_TO_RAD
  let dLat := lat2 - lat1
  let dLon := lon2 - lon1
  let a := Real.sin (dLat / 2) * Real.sin (dLat / 2) +
           Real.cos lat1 * Real.cos lat2 *
           Real.sin (dLon / 2) * Real.sin (dLon / 2)
  let c := 2 * atan2 (Real.sqrt a) (Real.sqrt (1 - a))
  EARTH_RADIUS_KM * c

/-- calculateSolarZenithAngle at a location and time, in degrees. -/
noncomputable def calculateSolarZenithAngle (lat lon : ℝ) (now : DateTime) : ℝ :=
  let latRad := lat * DEG_TO_RAD
  let dayOfYear : ℤ := now.dayOfYear - 1
  let declination :=
    SOLAR_DECLINATION_MAX * Real.sin (2 * Real.pi * ((dayOfYear : ℝ) - 172) / 365) * DEG_TO_RAD
  let hourAngle :=
    ((now.hour : ℝ) + (now.minute : ℝ) / 60 - 12) * 15 * DEG_TO_RAD + lon * DEG_TO_RAD
  let cosZenith :=
    Real.sin latRad * Real.sin declination +
    Real.cos latRad * Real.cos declination * Real.cos hourAngle
  Real.arccos (qBound (-1) cosZenith 1) * RAD_TO_DEG

/-- calculateDayNightPath: sample 11 points along the linearly interpolated
path and return the fraction with solar zenith angle below 90 degrees. -/
noncomputable def calculateDayNightPath (lat1 lon1 lat2 lon2 : ℝ) (now : DateTime) : ℝ :=
  let pts := (List.range 11).filter fun i =>
    let fraction := (i : ℝ) / 10
    let lat := lat1 + fraction * (lat2 - lat1)
    let lon := lon1 + fraction * (lon2 - lon1)
    calculateSolarZenithAngle lat lon now < 90
  (pts.length : ℝ) / 11

/-- calculateMUF: distance-bucketed base MUF times day/night, season and
solar-flux factors.  Generic over an ordered field so the same definition
serves exact rational evaluation and the real-valued strength model. -/
def calculateMUF {α : Type} [LinearOrderedField α]
    [DecidableRel fun a b : α => a < b]
    (distance dayFraction : α) (season sfi : ℤ) : α :=
  let baseMUF : α :=
    if distance < 500 then 7
    else if distance < 1500 then 14
    else if distance < 3000 then 21
    else 28
  let dayNightFactor : α := 7/10 + 6/10 * dayFraction
  let seasonFactor : α :=
    if season = 0 then 8/10
    else if season = 1 then 11/10
    else if season = 2 then 12/10
    else if season = 3 then 1
    else 1
  let sfiFactor : α := 5/10 + (sfi : α) / 200
  baseMUF * dayNightFactor * seasonFactor * sfiFactor

/-- calculateLUF: distance-bucketed base LUF times day/night and K-index
factors. -/
def calculateLUF {α : Type} [LinearOrderedField α]
    [DecidableRel fun a b : α => a < b]
    (distance dayFraction : α) (kIndex : ℤ) : α :=
  let baseLUF : α :=
    if distance < 500 then 18/10
    else if distance < 1500 then 35/10
    else if distance < 3000 then 7
    else 10
  let dayNightFactor : α := 5/10 + 8/10 * dayFraction
  let kFactor : α := 1 + (kIndex : α) / 10
  baseLUF * dayNightFactor * kFactor

/-- recommendBand: distance buckets with day/night and solar-flux refinement.
Daytime is local hour in [6, 18).  The source reads the current hour and
m_solarFluxIndex; both are explicit arguments here. -/
def recommendBand {α : Type} [LinearOrderedField α]
    [DecidableRel fun a b : α => a < b]
    (distance : α) (hour : ℤ) (sfi : ℤ) : ℤ :=
  let isDaytime := 6 ≤ hour ∧ hour < 18
  if distance < 500 then
    if isDaytime then 40 else 80
  else if distance < 1500 then
    if isDaytime then 20 else 40
  else if distance < 3000 then
    if isDaytime then (if 100 < sfi then 15 else 20) else 20
  else
    if isDaytime ∧ 120 < sfi then 10
    else if isDaytime then 15
    else 20

/-- bandToFrequency: first matching band definition's frequency, falling
back to the hard-coded switch table, 0 for an unknown band. -/
def bandToFrequency (defs : List BandDefinition) (band : ℤ) : ℚ :=
  match defs.find? fun d => d.band == band with
  | some d => d.frequency
  | none =>
    if band = 160 then 1.9
    else if band = 80 then 3.75
    else if band = 60 then 5.35
    else if band = 40 then 7.15
    else if band = 30 then 10.125
    else if band = 20 then 14.175
    else if band = 17 then 18.118
    else if band = 15 then 21.225
    else if band = 10 then 28.85
    else if band = 6 then 52.0
    else 0

/-- frequencyToBand: closed frequency ranges back to the nearest band. -/
def frequencyToBand {α : Type} [LinearOrderedField α]
    [DecidableRel fun a b : α => a < b]
    (frequency : α) : ℤ :=
  if frequency < 2 then 160
  else if frequency < 5 then 80
  else if frequency < 6 then 60
  else if frequency < 9 then 40
  else if frequency < 12 then 30
  else if frequency < 16 then 20
  else if frequency < 20 then 17
  else if frequency < 25 then 15
  else if frequency < 40 then 10
  else if frequency < 60 then 6
  else 0

/-- getChannelBand: channel → band, 0 when the channel is not a band channel. -/
def getChannelBand (st : HFState) (channelId : ℤ) : ℤ :=
  (st.channelBands.lookup channelId).getD 0

/-- getBandChannel: band → channel id, 0 when absent. -/
def getBandChannel (st : HFState) (band : ℤ) : ℤ :=
  (st.bandChannels.lookup band).getD 0

/-- Stand-in for the default-constructed BandDefinition local in
calculateSignalStrength; it is only read when recommendBand returns a band
absent from the table, which does not happen for the initialized table. -/
def emptyBandDef : BandDefinition := ⟨0, 0, 0, 0, 0, 0, 0⟩

/-- calculateSignalStrength: the full strength pipeline of the source —
base strength from the recommended band's distance window, MUF/LUF
exponential penalties, day/night blend, solar-flux scaling, K-index
attenuation, random fading factor, final clamp to [0, 1].
randDouble is the generateDouble() draw. -/
noncomputable def calculateSignalStrength (st : HFState) (grid1 grid2 : String)
    (now : DateTime) (randDouble : ℝ) : ℝ :=
  let latLon1 := gridToLatLon grid1
  let latLon2 := gridToLatLon grid2
  let distance := calculateDistance grid1 grid2
  let dayFraction :=
    calculateDayNightPath (latLon1.1 : ℝ) (latLon1.2 : ℝ) (latLon2.1 : ℝ) (latLon2.2 : ℝ) now
  let muf := calculateMUF distance dayFraction st.season st.solarFluxIndex
  let luf := calculateLUF distance dayFraction st.kIndex
  let bestBand := recommendBand distance now.hour st.solarFluxIndex
  let bestFreq : ℝ := (bandToFrequency st.bandDefinitions bestBand : ℚ)
  let bestBandDef := (st.bandDefinitions.find? fun d => d.band == bestBand).getD emptyBandDef
  let s1 : ℝ :=
    if distance < (bestBandDef.minDistance : ℝ) then 3/10
    else if (bestBandDef.maxDistance : ℝ) < distance then 1/10
    else (bestBandDef.reliability : ℝ) *
      (1 - (distance - (bestBandDef.minDistance : ℝ)) /
        ((bestBandDef.maxDistance : ℝ) - (bestBandDef.minDistance : ℝ)))
  let s2 : ℝ :=
    if muf < bestFreq then s1 * Real.exp (-(bestFreq - muf) / 5)
    else if bestFreq < luf then s1 * Real.exp (-(luf - bestFreq) / 2)
    else s1
  let s3 : ℝ := s2 *
    (dayFraction * (bestBandDef.dayFactor : ℝ) + (1 - dayFraction) * (bestBandDef.nightFactor : ℝ))
  let s4 : ℝ :=
    if bestBand ≤ 40 then s3 * (8/10 + 2/10 * (st.solarFluxIndex : ℝ) / 200)
    else s3 * (5/10 + 5/10 * (st.solarFluxIndex : ℝ) / 200)
  let s5 : ℝ := s4 * (1 - (st.kIndex : ℝ) / 20)
  let s6 : ℝ := s5 * (8/10 + randDouble * 4/10)
  qBound 0 s6 1

/-- calculatePropagation: returns 0 when either user's locator metadata is
empty; otherwise returns the cached strength for the session-id pair, or
computes, caches and returns it. -/
noncomputable def calculatePropagation (st : HFState) (user1 user2 : ServerUser)
    (now : DateTime) (randDouble : ℝ) : ℝ × HFState :=
  if user1.grid = "" ∨ user2.grid = "" then (0, st)
  else
    match st.signalStrengths.lookup (user1.session, user2.session) with
    | some v => (v, st)
    | none =>
      let s := calculateSignalStrength st user1.grid user2.grid now randDouble
      (s, { st with signalStrengths := ((user1.session, user2.session), s) :: st.signalStrengths })

/-- canCommunicate: same channel is always true; otherwise both channels
must map to bands, same band needs strength ≥ 0.5, bands within one octave
need strength ≥ 0.7, anything else is false. -/
noncomputable def canCommunicate (st : HFState) (user1 user2 : ServerUser)
    (now : DateTime) (randDouble : ℝ) : Bool × HFState :=
  if user1.channelId = user2.channelId then (true, st)
  else
    let band1 := getChannelBand st user1.channelId
    let band2 := getChannelBand st user2.channelId
    if band1 = 0 ∨ band2 = 0 then (false, st)
    else if band1 = band2 then
      let pr := calculatePropagation st user1 user2 now randDouble
      (if (1/2 : ℝ) ≤ pr.1 then true else false, pr.2)
    else
      let freq1 := bandToFrequency st.bandDefinitions band1
      let freq2 := bandToFrequency st.bandDefinitions band2
      let freqRatio := max freq1 freq2 / min freq1 freq2
      if freqRatio < 2 then
        let pr := calculatePropagation st user1 user2 now randDouble
        (if (7/10 : ℝ) ≤ pr.1 then true else false, pr.2)
      else (false, st)

/-- updatePropagation: clears the signal cache, recomputes the season from
the month when auto-time is enabled, then either arms an external refresh
(when external data is on and 30 minutes have elapsed) or applies the
internal 10%-probability perturbation to SFI and K; always ends by emitting
propagationUpdated.  The network dispatch itself has no state effect beyond
lastExternalUpdate. -/
def updatePropagation (st : HFState) (now : DateTime) (r : Rand) : HFState × List Event :=
  let st1 := { st with signalStrengths := ([] : List ((ℕ × ℕ) × ℝ)) }
  let st2 :=
    if st1.autoTimeEnabled then
      { st1 with season :=
          if 3 ≤ now.month ∧ now.month ≤ 5 then 1
          else if 6 ≤ now.month ∧ now.month ≤ 8 then 2
          else if 9 ≤ now.month ∧ now.month ≤ 11 then 3
          else 0 }
    else st1
  let st3 :=
    if st2.useExternalData then
      if 30 * 60 ≤ now.epochSecs - st2.lastExternalUpdate then
        { st2 with lastExternalUpdate := now.epochSecs }
      else st2
    else
      if r.double < 1/10 then
        { st2 with
            solarFluxIndex := qBound 60 (st2.solarFluxIndex + r.sfiChange) 300
            kIndex := qBound 0 (st2.kIndex + r.kChange) 9 }
      else st2
  (st3, [Event.propagationUpdated])

/-- setSolarFluxIndex: clamp to [60, 300], then updatePropagation. -/
def setSolarFluxIndex (st : HFState) (sfi : ℤ) (now : DateTime) (r : Rand) :
    HFState × List Event :=
  updatePropagation { st with solarFluxIndex := qBound 60 sfi 300 } now r

/-- setKIndex: clamp to [0, 9], then updatePropagation. -/
def setKIndex (st : HFState) (kIndex : ℤ) (now : DateTime) (r : Rand) :
    HFState × List Event :=
  updatePropagation { st with kIndex := qBound 0 kIndex 9 } now r

/-- setSeason: clamp to [0, 3], then updatePropagation. -/
def setSeason (st : HFState) (season : ℤ) (now : DateTime) (r : Rand) :
    HFState × List Event :=
  updatePropagation { st with season := qBound 0 season 3 } now r

/-- Parsed body of a DXView band-quality response: optional sfi and kindex
numbers and an optional bands object; each band entry carries its key and
the quality number when one is present (none models a missing or
non-numeric quality, or a non-object band value). -/
structure DXPayload where
  sfi : Option ℚ
  kindex : Option ℚ
  bands : Option (List (String × Option ℚ))

/-- Parsed body of an SWPC solar-weather response. -/
structure SWPCPayload where
  sfi : Option ℚ
  k_index : Option ℚ

/-- Outcome of a QNetworkReply as the response handlers see it. -/
inductive ReplyResult (π : Type) where
  | nullReply
  | transportError
  | invalidJson
  | ok (payload : π)

/-- The band-key digit extraction: strip non-digits, then QString::toInt
(empty string fails). -/
def parseBandNum (s : String) : Option ℤ :=
  let ds := s.toList.filter Char.isDigit
  if ds.isEmpty then none
  else some ((ds.foldl (fun n c => n * 10 + (c.toNat - 48)) 0 : ℕ) : ℤ)

/-- Overwrite the reliability of the first definition with the given band,
reporting whether one was found (the source loop breaks on first match). -/
def updateBand (defs : List BandDefinition) (band : ℤ) (q : ℚ) :
    List BandDefinition × Bool :=
  match defs with
  | [] => ([], false)
  | d :: rest =>
    if d.band = band then ({ d with reliability := q / 10 } :: rest, true)
    else
      let r := updateBand rest band q
      (d :: r.1, r.2)

/-- The bands-object loop of processDXViewResponse: each entry with a
parsable band number and a numeric quality overwrites that band's
reliability with quality/10. -/
def processBands (defs : List BandDefinition) (entries : List (String × Option ℚ)) :
    List BandDefinition × Bool :=
  entries.foldl
    (fun acc e =>
      match e.2, parseBandNum e.1 with
      | some q, some b =>
        let r := updateBand acc.1 b q
        (r.1, acc.2 || r.2)
      | _, _ => acc)
    (defs, false)

/-- processDXViewResponse: failures emit externalDataUpdated("DXView",
false) and leave the state alone; a parsed payload applies clamped SFI/K
and per-band reliabilities, emits externalDataUpdated("DXView", updated),
and on any update runs updatePropagation. -/
def processDXViewResponse (st : HFState) (reply : ReplyResult DXPayload)
    (now : DateTime) (r : Rand) : HFState × List Event :=
  match reply with
  | .nullReply => (st, [Event.externalDataUpdated "DXView" false])
  | .transportError => (st, [Event.externalDataUpdated "DXView" false])
  | .invalidJson => (st, [Event.externalDataUpdated "DXView" false])
  | .ok p =>
    let a1 : HFState × Bool :=
      match p.sfi with
      | some v => ({ st with solarFluxIndex := qBound 60 (qRound v) 300 }, true)
      | none => (st, false)
    let a2 : HFState × Bool :=
      match p.kindex with
      | some v => ({ a1.1 with kIndex := qBound 0 (qRound v) 9 }, true)
      | none => (a1.1, false)
    let a3 : HFState × Bool :=
      match p.bands with
      | some entries =>
        let r := processBands a2.1.bandDefinitions entries
        ({ a2.1 with bandDefinitions := r.1 }, r.2)
      | none => (a2.1, false)
    let updated := a1.2 || a2.2 || a3.2
    if updated then
      let u := updatePropagation a3.1 now r
      (u.1, Event.externalDataUpdated "DXView" updated :: u.2)
    else (a3.1, [Event.externalDataUpdated "DXView" updated])

/-- processSWPCResponse: same shape as the DXView handler, with the k_index
key and the "SWPC" source tag, and no band section. -/
def processSWPCResponse (st : HFState) (reply : ReplyResult SWPCPayload)
    (now : DateTime) (r : Rand) : HFState × List Event :=
  match reply with
  | .nullReply => (st, [Event.externalDataUpdated "SWPC" false])
  | .transportError => (st, [Event.externalDataUpdated "SWPC" false])
  | .invalidJson => (st, [Event.externalDataUpdated "SWPC" false])
  | .ok p =>
    let a1 : HFState × Bool :=
      match p.sfi with
      | some v => ({ st with solarFluxIndex := qBound 60 (qRound v) 300 }, true)
      | none => (st, false)
    let a2 : HFState × Bool :=
      match p.k_index with
      | some v => ({ a1.1 with kIndex := qBound 0 (qRound v) 9 }, true)
      | none => (a1.1, false)
    let updated := a1.2 || a2.2
    if updated then
      let u := updatePropagation a2.1 now r
      (u.1, Event.externalDataUpdated "SWPC" updated :: u.2)
    else (a2.1, [Event.externalDataUpdated "SWPC" updated])

/-- Number of cache entries whose key matches the unordered pair {a, b}. -/
def unorderedPairCount (cache : List ((ℕ × ℕ) × ℝ)) (a b : ℕ) : ℕ :=
  (cache.filter fun e => e.1 == (a, b) || e.1 == (b, a)).length

/-- The ten band ids of the catalogue, in table order. -/
def bandIdList : List ℤ := [160, 80, 60, 40, 30, 20, 17, 15, 10, 6]

/-- A user with session 1 and the two-character locator "AB" in channel 2
(the 80 m band channel). -/
def uA : ServerUser := ⟨1, "AB", 2⟩

/-- A user with session 2 and the two-character locator "AB" in channel 3
(the 60 m band channel). -/
def uB : ServerUser := ⟨2, "AB", 3⟩

/-- A concrete instant: June, midnight (hour 0, minute 0), day of year 173
(so the declination term vanishes), epoch second 0. -/
def now0 : DateTime := ⟨6, 0, 0, 173, 0⟩

/-- Concrete random draws: generateDouble ↦ 1/2 (so the fading factor is
exactly 1 and the 10% perturbation does not fire), zero bounded draws. -/
def r12 : Rand := ⟨1/2, 0, 0⟩

/-- The band-quality payload from the spec example:
{"bands":{"20m":{"quality":8}}}. -/
def payload20 : DXPayload := ⟨none, none, some [("20m", some 8)]⟩

/-! ## Theorems -/

/-- updatePropagation always clears the signal cache, never touches the band
definition table, and emits exactly one propagationUpdated event. -/
theorem updatePropagation_core (st : HFState) (now : DateTime) (r : Rand) :
    (updatePropagation st now r).1.signalStrengths = []
    ∧ (updatePropagation st now r).1.bandDefinitions = st.bandDefinitions
    ∧ (updatePropagation st now r).2 = [Event.propagationUpdated] := by
  unfold updatePropagation
  dsimp only
  split_ifs <;> simp

/-- A key on which lookup fails is not among the stored keys. -/
theorem lookup_none_not_mem {l : List ((ℕ × ℕ) × ℝ)} {k : ℕ × ℕ}
    (h : l.lookup k = none) : k ∉ l.map Prod.fst := by
  induction l with
  | nil => simp
  | cons a t ih =>
    rw [List.lookup_cons] at h
    by_cases hk : k == a.1
    · simp [hk] at h
    · simp only [hk] at h
      simp only [List.map_cons, List.mem_cons]
      push_neg
      exact ⟨by simpa using hk, ih h⟩

/-- A cache miss prepends exactly one entry, keyed by the ordered session
pair (user1.session, user2.session). -/
theorem calcProp_miss (st : HFState) (u1 u2 : ServerUser) (now : DateTime) (r : ℝ)
    (h1 : u1.grid ≠ "") (h2 : u2.grid ≠ "")
    (hl : st.signalStrengths.lookup (u1.session, u2.session) = none) :
    (calculatePropagation st u1 u2 now r).2.signalStrengths
      = ((u1.session, u2.session), calculateSignalStrength st u1.grid u2.grid now r)
          :: st.signalStrengths := by
  unfold calculatePropagation
  rw [if_neg (by simp [h1, h2]), hl]

/-- C1 (amended): the signal cache is keyed by the ORDERED pair of session
ids.  A repeated query for the same ordered pair (A, B) within one epoch
returns the first query's stored result with the state unchanged — even
with a different random draw — and queries preserve key uniqueness per
ordered pair.  (Queries for (B, A) use a distinct entry; see the
counterexample.) -/
theorem cache_ordered_pair (st : HFState) (u1 u2 : ServerUser)
    (now : DateTime) (r r2 : ℝ)
    (h1 : u1.grid ≠ "") (h2 : u2.grid ≠ "")
    (hnd : (st.signalStrengths.map Prod.fst).Nodup) :
    calculatePropagation (calculatePropagation st u1 u2 now r).2 u1 u2 now r2
      = calculatePropagation st u1 u2 now r
    ∧ ((calculatePropagation st u1 u2 now r).2.signalStrengths.map Prod.fst).Nodup := by
  unfold calculatePropagation
  rw [if_neg (by simp [h1, h2])]
  cases hl : st.signalStrengths.lookup (u1.session, u2.session) with
  | some v =>
    simp only [hl]
    rw [if_neg (by simp [h1, h2]), hl]
    exact ⟨rfl, hnd⟩
  | none =>
    simp only [hl]
    rw [if_neg (by simp [h1, h2])]
    rw [List.lookup_cons]
    simp only [beq_self_eq_true]
    refine ⟨trivial, ?_⟩
    simp only [List.map_cons, List.nodup_cons]
    exact ⟨lookup_none_not_mem hl, hnd⟩

/-- Witness for cache_ordered_pair: two concrete users with nonempty
locators starting from the freshly initialized (nodup, empty) cache. -/
theorem cache_ordered_pair_witness :
    calculatePropagation (calculatePropagation initState uA uB now0 (1/2)).2 uA uB now0 (3/4)
      = calculatePropagation initState uA uB now0 (1/2)
    ∧ ((calculatePropagation initState uA uB now0 (1/2)).2.signalStrengths.map Prod.fst).Nodup :=
  cache_ordered_pair initState uA uB now0 (1/2) (3/4)
    (by decide) (by decide) (by simp [initState])

/-- C1 counterexample: the cache is NOT keyed by an unordered pair — after
querying (A, B) and then (B, A) in the same epoch, the cache holds two
distinct stored values for the unordered pair {A, B}. -/
theorem cache_unordered_pair_two_entries :
    unorderedPairCount
      ((calculatePropagation (calculatePropagation initState uA uB now0 (1/2)).2
          uB uA now0 (1/2)).2.signalStrengths) 1 2 = 2 := by
  have hc1 : (calculatePropagation initState uA uB now0 (1/2)).2.signalStrengths
      = [((1, 2), calculateSignalStrength initState "AB" "AB" now0 (1/2))] := by
    rw [calcProp_miss initState uA uB now0 (1/2) (by decide) (by decide) rfl]
    rfl
  have hc2 : ((calculatePropagation initState uA uB now0 (1/2)).2.signalStrengths.lookup
      ((uB.session : ℕ), (uA.session : ℕ))) = none := by
    rw [hc1, List.lookup_cons]
    decide
  rw [calcProp_miss _ uB uA now0 (1/2) (by decide) (by decide) hc2, hc1]
  simp [unorderedPairCount, uB, uA]

/-- C2 (amended): a pair with a MISSING (empty) locator yields strength 0
and cannot communicate outside a shared channel.  (A nonempty locator
shorter than 4 characters instead decodes to the (0,0) sentinel and
generally yields a nonzero strength; see the counterexample.) -/
theorem emptyGrid_no_signal (st : HFState) (u1 u2 : ServerUser) (now : DateTime) (r : ℝ)
    (h : u1.grid = "" ∨ u2.grid = "") :
    calculatePropagation st u1 u2 now r = (0, st)
    ∧ (u1.channelId ≠ u2.channelId → (canCommunicate st u1 u2 now r).1 = false) := by
  have hp : calculatePropagation st u1 u2 now r = (0, st) := by
    unfold calculatePropagation; rw [if_pos h]
  refine ⟨hp, fun hch => ?_⟩
  unfold canCommunicate
  rw [if_neg hch]
  dsimp only
  rw [hp]
  dsimp only
  split_ifs <;> first | rfl | (exfalso; linarith)

/-- Witness for emptyGrid_no_signal: session 1 with empty locator in
channel 2, session 2 with locator "AB" in channel 3. -/
theorem emptyGrid_no_signal_witness :
    calculatePropagation initState ⟨1, "", 2⟩ ⟨2, "AB", 3⟩ now0 0 = (0, initState)
    ∧ ((⟨1, "", 2⟩ : ServerUser).channelId ≠ (⟨2, "AB", 3⟩ : ServerUser).channelId →
        (canCommunicate initState ⟨1, "", 2⟩ ⟨2, "AB", 3⟩ now0 0).1 = false) :=
  emptyGrid_no_signal initState ⟨1, "", 2⟩ ⟨2, "AB", 3⟩ now0 0 (Or.inl rfl)

/-- C6: the computed signal strength always lies in [0, 1] — the final
clamp guarantees it for every locator pair, time, random draw and all
in-range conditions. -/
theorem signalStrength_bounded (st : HFState) (g1 g2 : String) (now : DateTime) (rd : ℝ)
    (hs1 : 60 ≤ st.solarFluxIndex) (hs2 : st.solarFluxIndex ≤ 300)
    (hk1 : 0 ≤ st.kIndex) (hk2 : st.kIndex ≤ 9) :
    0 ≤ calculateSignalStrength st g1 g2 now rd
    ∧ calculateSignalStrength st g1 g2 now rd ≤ 1 := by
  unfold calculateSignalStrength qBound
  dsimp only
  exact ⟨le_max_left _ _, max_le (by norm_num) (min_le_left _ _)⟩

/-- Witness for signalStrength_bounded at the initial conditions
(SFI 120, K 3). -/
theorem signalStrength_bounded_witness :
    0 ≤ calculateSignalStrength initState "FN31" "JO62" now0 (1/2)
    ∧ calculateSignalStrength initState "FN31" "JO62" now0 (1/2) ≤ 1 :=
  signalStrength_bounded initState "FN31" "JO62" now0 (1/2)
    (by decide) (by decide) (by decide) (by decide)

/-- C4 (amended): each configuration write clamps at the boundary
(500 ↦ 300, −1 ↦ 0, 9 ↦ 3) and, provided the propagation update the setter
triggers does not itself overwrite the field (auto-time off, external data
off, perturbation draw not firing), that clamped value is what remains
stored. -/
theorem setters_clamped (st : HFState) (now : DateTime) (r : Rand)
    (hauto : st.autoTimeEnabled = false) (hext : st.useExternalData = false)
    (hr : ¬ r.double < 1/10) :
    (setSolarFluxIndex st 500 now r).1.solarFluxIndex = 300
    ∧ (setKIndex st (-1) now r).1.kIndex = 0
    ∧ (setSeason st 9 now r).1.season = 3 := by
  unfold setSolarFluxIndex setKIndex setSeason updatePropagation qBound
  simp [hauto, hext]
  split_ifs with h
  · exact absurd h (by simpa using hr)
  · simp

/-- Witness for setters_clamped on the initial state with auto-time and
external data both disabled and a non-firing draw. -/
theorem setters_clamped_witness :
    (setSolarFluxIndex { initState with autoTimeEnabled := false } 500 now0 r12).1.solarFluxIndex = 300
    ∧ (setKIndex { initState with autoTimeEnabled := false } (-1) now0 r12).1.kIndex = 0
    ∧ (setSeason { initState with autoTimeEnabled := false } 9 now0 r12).1.season = 3 :=
  setters_clamped { initState with autoTimeEnabled := false } now0 r12
    rfl rfl (by norm_num [r12])

/-- C4 counterexample: with the DEFAULT auto-time setting, setSeason(9) in
June does not leave season 3 stored — the triggered update immediately
recomputes season 2 (Summer) from the month, so the claim's "stored season
is 3" fails. -/
theorem setSeason_overridden_by_autoTime :
    (setSeason initState 9 now0 r12).1.season = 2 := by
  norm_num [setSeason, updatePropagation, initState, now0, r12, qBound]

/-- The solar zenith angle at the (0,0) sentinel position at the now0
instant (June 22, midnight) is exactly 180 degrees — full night. -/
theorem zenith_origin : calculateSolarZenithAngle 0 0 now0 = 180 := by
  unfold calculateSolarZenithAngle qBound DEG_TO_RAD RAD_TO_DEG SOLAR_DECLINATION_MAX now0
  dsimp only
  norm_num
  rw [show (180 : ℝ) * (Real.pi / 180) = Real.pi by ring]
  rw [Real.cos_pi]
  rw [show (1 : ℝ) ⊓ (-1) = -1 from min_eq_right (by norm_num)]
  rw [show (-1 : ℝ) ⊔ (-1) = -1 from max_self _]
  rw [Real.arccos_neg_one]
  field_simp

/-- The day fraction of the degenerate path sitting at the (0,0) sentinel
at the now0 instant is 0: all eleven sample points are in darkness. -/
theorem dayNight_origin : calculateDayNightPath 0 0 0 0 now0 = 0 := by
  unfold calculateDayNightPath
  dsimp only
  have hnil : ((List.range 11).filter fun i =>
      decide (calculateSolarZenithAngle ((0:ℝ) + (i:ℝ)/10 * (0-0)) ((0:ℝ) + (i:ℝ)/10 * (0-0)) now0 < 90)) = [] := by
    rw [List.filter_eq_nil_iff]
    intro i _
    have h0 : (0:ℝ) + (i:ℝ)/10 * (0-0) = 0 := by ring
    rw [h0, zenith_origin]
    norm_num
  rw [hnil]
  norm_num

/-- The haversine distance of any locator to itself is 0. -/
theorem calculateDistance_self (g : String) : calculateDistance g g = 0 := by
  unfold calculateDistance atan2
  dsimp only
  rw [sub_self, sub_self]
  norm_num

/-- The haversine argument is invariant under swapping the endpoints. -/
theorem haversine_arg_comm (x y u v : ℝ) :
    Real.sin ((y - x) / 2) * Real.sin ((y - x) / 2) +
      Real.cos x * Real.cos y * Real.sin ((v - u) / 2) * Real.sin ((v - u) / 2)
    = Real.sin ((x - y) / 2) * Real.sin ((x - y) / 2) +
      Real.cos y * Real.cos x * Real.sin ((u - v) / 2) * Real.sin ((u - v) / 2) := by
  rw [show (x - y) / 2 = -((y - x) / 2) by ring, show (u - v) / 2 = -((v - u) / 2) by ring]
  simp only [Real.sin_neg]
  ring

/-- The haversine distance is symmetric in its two locators. -/
theorem calculateDistance_comm (g1 g2 : String) :
    calculateDistance g1 g2 = calculateDistance g2 g1 := by
  unfold calculateDistance
  dsimp only
  rw [haversine_arg_comm]

/-- C8: the great-circle distance is symmetric and zero on identical input. -/
theorem distance_symm_and_self (g1 g2 g : String) :
    calculateDistance g1 g2 = calculateDistance g2 g1 ∧ calculateDistance g g = 0 :=
  ⟨calculateDistance_comm g1 g2, calculateDistance_self g⟩

/-- A two-character locator decodes to the (0,0) sentinel. -/
theorem grid_AB : gridToLatLon "AB" = (0, 0) := by decide

/-- Exact strength for a pair of users both at the "AB" sentinel at the now0
instant with the neutral fading draw 1/2: the model treats them as co-located
at (0,0) in darkness and produces 0.8092 — not 0. -/
theorem strength_AB :
    calculateSignalStrength initState "AB" "AB" now0 (1/2) = 2023/2500 := by
  have hfind80 : (defaultBandDefinitions.find? fun d => d.band == (80:ℤ))
      = some ⟨80, 3.75, 0, 1500, 0.85, 0.6, 1.4⟩ := by
    simp [defaultBandDefinitions, List.find?]
  have hbtf : bandToFrequency defaultBandDefinitions 80 = 15/4 := by
    simp [bandToFrequency, defaultBandDefinitions, List.find?]
    norm_num
  unfold calculateSignalStrength
  dsimp only
  rw [grid_AB]
  simp only [Prod.fst, Prod.snd, Rat.cast_zero]
  rw [calculateDistance_self, dayNight_origin]
  norm_num [calculateMUF, calculateLUF, recommendBand, hbtf, hfind80,
    initState, emptyBandDef, qBound, now0]

/-- C2 counterexample: locators shorter than 4 characters are NOT treated as
"no propagation".  Two users whose locator is the 2-character string "AB",
sitting in different band channels (80 m and 60 m), get propagation strength
0.8092 — not 0 — and canCommunicate returns true, not false. -/
theorem shortGrid_nonzero :
    (calculatePropagation initState uA uB now0 (1/2)).1 = 2023/2500
    ∧ uA.channelId ≠ uB.channelId
    ∧ (canCommunicate initState uA uB now0 (1/2)).1 = true := by
  have hbtf60 : bandToFrequency defaultBandDefinitions 60 = 107/20 := by
    simp [bandToFrequency, defaultBandDefinitions, List.find?]
    norm_num
  have hbtf80 : bandToFrequency defaultBandDefinitions 80 = 15/4 := by
    simp [bandToFrequency, defaultBandDefinitions, List.find?]
    norm_num
  have hprop : (calculatePropagation initState uA uB now0 (1/2)).1 = 2023/2500 := by
    unfold calculatePropagation
    rw [if_neg (by decide)]
    rw [show (initState.signalStrengths.lookup ((uA.session, uB.session))) = none from rfl]
    dsimp only
    show calculateSignalStrength initState uA.grid uB.grid now0 (1/2) = 2023/2500
    exact strength_AB
  refine ⟨hprop, by decide, ?_⟩
  unfold canCommunicate
  rw [if_neg (by decide)]
  dsimp only
  rw [show getChannelBand initState uA.channelId = 80 from by decide,
      show getChannelBand initState uB.channelId = 60 from by decide]
  rw [if_neg (by decide), if_neg (by decide)]
  rw [show initState.bandDefinitions = defaultBandDefinitions from rfl, hbtf80, hbtf60]
  rw [show max (15/4 : ℚ) (107/20) = 107/20 from max_eq_right (by norm_num),
      show min (15/4 : ℚ) (107/20) = 15/4 from min_eq_left (by norm_num)]
  rw [if_pos (by norm_num)]
  rw [hprop]
  norm_num

/-- Overwriting the reliability of a band present in the table succeeds and
leaves the first matching definition with reliability q/10. -/
theorem updateBand_found {defs : List BandDefinition} {b : ℤ} (q : ℚ)
    (h : b ∈ defs.map BandDefinition.band) :
    (updateBand defs b q).2 = true
    ∧ ((updateBand defs b q).1.find? fun d => d.band == b).map BandDefinition.reliability
        = some (q / 10) := by
  induction defs with
  | nil => simp at h
  | cons d rest ih =>
    unfold updateBand
    by_cases hd : d.band = b
    · rw [if_pos hd]
      refine ⟨rfl, ?_⟩
      rw [List.find?_cons_of_pos _ (by simp [hd])]
      rfl
    · rw [if_neg hd]
      dsimp only
      have h' : b ∈ rest.map BandDefinition.band := by
        simp only [List.map_cons, List.mem_cons] at h
        rcases h with he | hm
        · exact absurd he.symm hd
        · exact hm
      obtain ⟨h1, h2⟩ := ih h'
      refine ⟨h1, ?_⟩
      rw [List.find?_cons_of_neg _ (by simp [hd])]
      exact h2

/-- Any DXView reply: a success notification implies the cache was cleared
and a refresh notification was emitted, and no reply whatsoever yields an
MUF-changed notification. -/
theorem dx_success_refresh (st : HFState) (rd : ReplyResult DXPayload)
    (now : DateTime) (r : Rand) :
    (Event.externalDataUpdated "DXView" true ∈ (processDXViewResponse st rd now r).2 →
      (processDXViewResponse st rd now r).1.signalStrengths = []
      ∧ Event.propagationUpdated ∈ (processDXViewResponse st rd now r).2)
    ∧ (processDXViewResponse st rd now r).2.filter Event.isMufChanged = [] := by
  cases rd with
  | nullReply => simp [processDXViewResponse, Event.isMufChanged]
  | transportError => simp [processDXViewResponse, Event.isMufChanged]
  | invalidJson => simp [processDXViewResponse, Event.isMufChanged]
  | ok p =>
    unfold processDXViewResponse
    dsimp only
    split_ifs with hu
    · constructor
      · intro _
        refine ⟨(updatePropagation_core _ now r).1, ?_⟩
        rw [(updatePropagation_core _ now r).2.2]
        simp
      · rw [List.filter_cons, (updatePropagation_core _ now r).2.2]
        simp [Event.isMufChanged]
    · constructor
      · intro hm
        simp only [List.mem_singleton] at hm
        simp only [Event.externalDataUpdated.injEq, true_and] at hm
        exact absurd hm.symm hu
      · simp [Event.isMufChanged]

/-- Any SWPC reply: same guarantees as the DXView handler. -/
theorem swpc_success_refresh (st : HFState) (rs : ReplyResult SWPCPayload)
    (now : DateTime) (r : Rand) :
    (Event.externalDataUpdated "SWPC" true ∈ (processSWPCResponse st rs now r).2 →
      (processSWPCResponse st rs now r).1.signalStrengths = []
      ∧ Event.propagationUpdated ∈ (processSWPCResponse st rs now r).2)
    ∧ (processSWPCResponse st rs now r).2.filter Event.isMufChanged = [] := by
  cases rs with
  | nullReply => simp [processSWPCResponse, Event.isMufChanged]
  | transportError => simp [processSWPCResponse, Event.isMufChanged]
  | invalidJson => simp [processSWPCResponse, Event.isMufChanged]
  | ok p =>
    unfold processSWPCResponse
    dsimp only
    split_ifs with hu
    · constructor
      · intro _
        refine ⟨(updatePropagation_core _ now r).1, ?_⟩
        rw [(updatePropagation_core _ now r).2.2]
        simp
      · rw [List.filter_cons, (updatePropagation_core _ now r).2.2]
        simp [Event.isMufChanged]
    · constructor
      · intro hm
        simp only [List.mem_singleton] at hm
        simp only [Event.externalDataUpdated.injEq, true_and] at hm
        exact absurd hm.symm hu
      · simp [Event.isMufChanged]

/-- Processing the {"bands":{"20m":{"quality":8}}} payload on any state
whose band table contains a 20 m entry (the initial catalogue and every
post-merge state): the 20 m reliability becomes 8/10, the cache is cleared,
and the emitted events are exactly the success notification followed by the
refresh notification. -/
theorem processDX_payload20_gen (st : HFState) (now : DateTime) (r : Rand)
    (h20 : (20:ℤ) ∈ st.bandDefinitions.map BandDefinition.band) :
    ((processDXViewResponse st (.ok payload20) now r).1.bandDefinitions.find?
        fun d => d.band == 20).map BandDefinition.reliability = some (8/10)
    ∧ (processDXViewResponse st (.ok payload20) now r).1.signalStrengths = []
    ∧ (processDXViewResponse st (.ok payload20) now r).2
        = [Event.externalDataUpdated "DXView" true, Event.propagationUpdated] := by
  have hparse : parseBandNum "20m" = some 20 := by decide
  obtain ⟨hsnd, hfind⟩ := @updateBand_found st.bandDefinitions 20 8 h20
  have hproc : processDXViewResponse st (.ok payload20) now r
      = ((updatePropagation { st with bandDefinitions := (updateBand st.bandDefinitions 20 8).1 } now r).1,
         Event.externalDataUpdated "DXView" true ::
           (updatePropagation { st with bandDefinitions := (updateBand st.bandDefinitions 20 8).1 } now r).2) := by
    simp only [processDXViewResponse, payload20, processBands, List.foldl, hparse, hsnd,
      Bool.false_or, Bool.or_true, if_true]
  obtain ⟨hc, hb, he⟩ := updatePropagation_core
    { st with bandDefinitions := (updateBand st.bandDefinitions 20 8).1 } now r
  rw [hproc]
  refine ⟨?_, hc, by rw [he]⟩
  dsimp only
  rw [hb]
  exact hfind

/-- C3 (amended): every successful external-feed merge — either feed, any
payload, any state — clears the SignalCache and emits a refresh
notification alongside the feed-success notification, but NO MUF-changed
notification is emitted by any feed outcome: the mufChanged signal is
declared and connected yet has no emission site.  In particular the
bands.20m.quality = 8 payload sets the 20 m reliability to 0.8 on any state
whose table has a 20 m entry. -/
theorem feedMerge_refresh_no_muf (st : HFState) (rd : ReplyResult DXPayload)
    (rs : ReplyResult SWPCPayload) (now : DateTime) (r : Rand) :
    (Event.externalDataUpdated "DXView" true ∈ (processDXViewResponse st rd now r).2 →
      (processDXViewResponse st rd now r).1.signalStrengths = []
      ∧ Event.propagationUpdated ∈ (processDXViewResponse st rd now r).2)
    ∧ (Event.externalDataUpdated "SWPC" true ∈ (processSWPCResponse st rs now r).2 →
      (processSWPCResponse st rs now r).1.signalStrengths = []
      ∧ Event.propagationUpdated ∈ (processSWPCResponse st rs now r).2)
    ∧ (processDXViewResponse st rd now r).2.filter Event.isMufChanged = []
    ∧ (processSWPCResponse st rs now r).2.filter Event.isMufChanged = []
    ∧ ((20:ℤ) ∈ st.bandDefinitions.map BandDefinition.band →
        ((processDXViewResponse st (.ok payload20) now r).1.bandDefinitions.find?
            fun d => d.band == 20).map BandDefinition.reliability = some (8/10)
        ∧ (processDXViewResponse st (.ok payload20) now r).1.signalStrengths = []
        ∧ (processDXViewResponse st (.ok payload20) now r).2
            = [Event.externalDataUpdated "DXView" true, Event.propagationUpdated]) :=
  ⟨(dx_success_refresh st rd now r).1,
   (swpc_success_refresh st rs now r).1,
   (dx_success_refresh st rd now r).2,
   (swpc_success_refresh st rs now r).2,
   fun h20 => processDX_payload20_gen st now r h20⟩

/-- Witness for feedMerge_refresh_no_muf: a successful DXView merge of the
example payload and a successful SWPC merge of {sfi: 150, k_index: 2}, both
on the initialized state. -/
theorem feedMerge_refresh_no_muf_witness :
    ((processDXViewResponse initState (.ok payload20) now0 r12).1.signalStrengths = []
      ∧ Event.propagationUpdated ∈ (processDXViewResponse initState (.ok payload20) now0 r12).2)
    ∧ ((processSWPCResponse initState (.ok ⟨some 150, some 2⟩) now0 r12).1.signalStrengths = []
      ∧ Event.propagationUpdated ∈ (processSWPCResponse initState (.ok ⟨some 150, some 2⟩) now0 r12).2)
    ∧ ((processDXViewResponse initState (.ok payload20) now0 r12).1.bandDefinitions.find?
          fun d => d.band == 20).map BandDefinition.reliability = some (8/10)
    ∧ (processSWPCResponse initState (.ok ⟨some 150, some 2⟩) now0 r12).2.filter Event.isMufChanged = [] := by
  have t := feedMerge_refresh_no_muf initState (.ok payload20) (.ok ⟨some 150, some 2⟩) now0 r12
  have h20 : (20:ℤ) ∈ initState.bandDefinitions.map BandDefinition.band := by decide
  have hsw : Event.externalDataUpdated "SWPC" true
      ∈ (processSWPCResponse initState (.ok ⟨some 150, some 2⟩) now0 r12).2 := by
    simp [processSWPCResponse]
  refine ⟨t.1 ?_, t.2.1 hsw, (t.2.2.2.2 h20).1, t.2.2.2.1⟩
  rw [(t.2.2.2.2 h20).2.2]
  simp

/-- C3 counterexample: the full event list of a successful merge of the
spec's example payload is exactly [externalDataUpdated "DXView" true,
propagationUpdated]; it contains no MUF-changed notification, refuting the
claim that every successful merge emits one. -/
theorem feedMerge_emits_no_mufChanged :
    (processDXViewResponse initState (.ok payload20) now0 r12).2
        = [Event.externalDataUpdated "DXView" true, Event.propagationUpdated]
    ∧ (processDXViewResponse initState (.ok payload20) now0 r12).2.filter Event.isMufChanged = [] := by
  obtain ⟨h1, h2, h3⟩ := processDX_payload20_gen initState now0 r12 (by decide)
  exact ⟨h3, by rw [h3]; simp [Event.isMufChanged]⟩

/-- C5: a feed transport error, null reply, or unparsable payload leaves the
entire state unchanged and emits exactly one failure notification carrying
the feed identifier. -/
theorem feedFailure_state_intact (st : HFState) (now : DateTime) (r : Rand) :
    processDXViewResponse st .nullReply now r = (st, [Event.externalDataUpdated "DXView" false])
    ∧ processDXViewResponse st .transportError now r = (st, [Event.externalDataUpdated "DXView" false])
    ∧ processDXViewResponse st .invalidJson now r = (st, [Event.externalDataUpdated "DXView" false])
    ∧ processSWPCResponse st .nullReply now r = (st, [Event.externalDataUpdated "SWPC" false])
    ∧ processSWPCResponse st .transportError now r = (st, [Event.externalDataUpdated "SWPC" false])
    ∧ processSWPCResponse st .invalidJson now r = (st, [Event.externalDataUpdated "SWPC" false]) :=
  ⟨rfl, rfl, rfl, rfl, rfl, rfl⟩

/-- C7: recommendBand at the 500 km bucket boundary: distance 499 gives 80
at night and 40 during the day, distance 500 gives 40 at night and 20 during
the day, with daytime meaning the local hour lies in [6, 18). -/
theorem recommendBand_500_boundary (hour sfi : ℤ) :
    ((6 ≤ hour ∧ hour < 18) →
      recommendBand (499 : ℚ) hour sfi = 40 ∧ recommendBand (500 : ℚ) hour sfi = 20)
    ∧ (¬(6 ≤ hour ∧ hour < 18) →
      recommendBand (499 : ℚ) hour sfi = 80 ∧ recommendBand (500 : ℚ) hour sfi = 40) := by
  unfold recommendBand
  refine ⟨fun h => ⟨?_, ?_⟩, fun h => ⟨?_, ?_⟩⟩ <;> norm_num [h]

/-- Witness for recommendBand_500_boundary at hour 12 (day) and hour 0 (night). -/
theorem recommendBand_500_boundary_witness :
    recommendBand (499 : ℚ) 12 120 = 40 ∧ recommendBand (500 : ℚ) 0 120 = 40 :=
  ⟨((recommendBand_500_boundary 12 120).1 (by decide)).1,
   ((recommendBand_500_boundary 0 120).2 (by decide)).2⟩

/-- recommendBand only ever returns 80, 40, 20, 15 or 10, whatever its
arguments. -/
theorem recommendBand_mem_core {α : Type} [LinearOrderedField α]
    [DecidableRel fun a b : α => a < b] (d : α) (hour sfi : ℤ) :
    recommendBand d hour sfi ∈ ([80, 40, 20, 15, 10] : List ℤ) := by
  unfold recommendBand
  dsimp only
  split_ifs <;> decide

/-- C10: for every nonnegative distance, hour and solar flux index the
recommended band is one of 80, 40, 20, 15, 10 — in particular the band the
strength computation selects for the distance between any two locators is
always one of those five. -/
theorem recommendBand_range (d : ℝ) (hd : 0 ≤ d) (hour sfi : ℤ) (g1 g2 : String) :
    recommendBand d hour sfi ∈ ([80, 40, 20, 15, 10] : List ℤ)
    ∧ recommendBand (calculateDistance g1 g2) hour sfi ∈ ([80, 40, 20, 15, 10] : List ℤ) :=
  ⟨recommendBand_mem_core d hour sfi, recommendBand_mem_core _ hour sfi⟩

/-- Witness for recommendBand_range at distance 1000. -/
theorem recommendBand_range_witness :
    recommendBand (1000 : ℝ) 12 120 ∈ ([80, 40, 20, 15, 10] : List ℤ)
    ∧ recommendBand (calculateDistance "AA00" "JN58") 12 120 ∈ ([80, 40, 20, 15, 10] : List ℤ) :=
  recommendBand_range 1000 (by norm_num) 12 120 "AA00" "JN58"

/-- C9: over the initialized catalogue the band/frequency tables round-trip
on each of the ten band ids, and bandToFrequency returns 0 on every other
integer. -/
theorem bandTables_roundTrip (b z : ℤ) (hb : b ∈ bandIdList) (hz : z ∉ bandIdList) :
    frequencyToBand (bandToFrequency defaultBandDefinitions b) = b
    ∧ bandToFrequency defaultBandDefinitions z = 0 := by
  constructor
  · fin_cases hb <;>
    · simp [bandToFrequency, defaultBandDefinitions, List.find?]
      norm_num [frequencyToBand]
  · simp only [bandIdList, List.mem_cons, List.not_mem_nil, or_false] at hz
    push_neg at hz
    obtain ⟨h1, h2, h3, h4, h5, h6, h7, h8, h9, h10⟩ := hz
    have hfind : (defaultBandDefinitions.find? fun d => d.band == z) = none := by
      rw [List.find?_eq_none]
      intro d hd
      fin_cases hd <;> simpa using by omega
    simp only [bandToFrequency, hfind]
    split_ifs <;> simp_all

/-- Witness for bandTables_roundTrip with band 20 and non-band integer 42. -/
theorem bandTables_roundTrip_witness :
    frequencyToBand (bandToFrequency defaultBandDefinitions 20) = 20
    ∧ bandToFrequency defaultBandDefinitions 42 = 0 :=
  bandTables_roundTrip 20 42 (by decide) (by decide)

end HFBandSimulation
